import Mathlib

/-!
Shallow embedding of src/PlaystationController2USB/PlaystationController2USB.ino.

The sketch is an adaptation layer between a PSX controller driver
(PsxControllerBitBang, an external library) and a USB joystick library
(Joystick.h, also external).  We embed the adaptation layer itself: the
poll scheduler, the presence state machine and the report mapper inside
the function called loop, together with the helper deadify and the
constants it uses.

External library constants: the sketch comments pin them down.  The call
psx.getRightAnalog returns bytes in the range 0 to 255 (comment in the
source), and the line computing ANALOG_IDLE_VALUE - x - 1 is annotated
with the resulting range 127 down to -128, which forces
ANALOG_IDLE_VALUE = 128, ANALOG_MIN_VALUE = 0 and ANALOG_MAX_VALUE = 255
(the setup comment states the joystick axes use the same range of values
the PSX controller produces).

The C float computation atan2 / toDegrees is modelled over the real
numbers via the principal-value argument Complex.arg, which is the
mathematical specification of the C library atan2: all claims about the
angle are stated up to rounding, and every concrete evaluation below
happens at an axis-aligned point where the computation is exact.
-/

/-- Polling interval of the scheduler, 1000 / 50 milliseconds (source line 28). -/
def POLLING_INTERVAL : ℕ := 1000 / 50

/-- Minimum analog axis value (library constant, see header comment). -/
def ANALOG_MIN_VALUE : ℕ := 0

/-- Maximum analog axis value (library constant, see header comment). -/
def ANALOG_MAX_VALUE : ℕ := 255

/-- Idle (centre) analog axis value (library constant, see header comment). -/
def ANALOG_IDLE_VALUE : ℕ := 128

/-- Dead zone threshold for the right analog stick (source line 65). -/
def ANALOG_DEAD_ZONE : ℤ := 50

/-- The deadify preprocessor define of the source (line 63):
abs (var) > thres ? (var) : 0, at the threshold ANALOG_DEAD_ZONE. -/
def deadify (v : ℤ) : ℤ := if ANALOG_DEAD_ZONE < |v| then v else 0

/-- Signed, flipped deviation of a raw stick byte from the centre:
ANALOG_IDLE_VALUE - v - 1, as in the source (lines 157 and 160).  The C
expression is computed in int and its value 127 - v lies in the int8
range for every byte v, so the conversion to int8_t is exact and the
integer 128 - v - 1 is the faithful model. -/
def stickDev (v : Fin 256) : ℤ := (ANALOG_IDLE_VALUE : ℤ) - ((v : ℕ) : ℤ) - 1

/-- Four-quadrant arctangent, the mathematical specification of the C
atan2: the principal argument of x + y i, in the interval (-pi, pi]. -/
noncomputable def atan2 (y x : ℝ) : ℝ := Complex.arg ((x : ℂ) + (y : ℂ) * Complex.I)

/-- The toDegrees preprocessor define of the source (line 61): rad * 180 / pi. -/
noncomputable def toDegrees (r : ℝ) : ℝ := r * 180 / Real.pi

/-- The angle computed at source line 166: atan2 (ry, rx) + 2 pi - pi / 2. -/
noncomputable def hatAngle (rx ry : ℤ) : ℝ := atan2 (ry : ℝ) (rx : ℝ) + 2 * Real.pi - Real.pi / 2

/-- The integer angle of source line 167: the float toDegrees (angle) + 0.5 is
truncated to uint16_t and reduced modulo 360.  The float is always positive
(the angle lies in (pi / 2, 5 pi / 2]), so the truncation is the floor. -/
noncomputable def intAngle (rx ry : ℤ) : ℕ := (⌊toDegrees (hatAngle rx ry) + 1 / 2⌋).toNat % 360

/-- Hat switch derived from the raw right analog stick bytes (source lines
155 to 171): deviations are dead-zone filtered per axis; if both vanish the
hat is released (none), otherwise it is the integer angle. -/
noncomputable def hatFromRight (x y : Fin 256) : Option ℕ :=
  if deadify (stickDev x) = 0 ∧ deadify (stickDev y) = 0 then none
  else some (intAngle (deadify (stickDev x)) (deadify (stickDev y)))

/-- The PSX controller buttons read by the sketch. -/
inductive PsxButton where
  | square
  | cross
  | circle
  | triangle
  | l1
  | r1
  | l2
  | r2
  | select
  | start
  | l3
  | r3
  | padUp
  | padDown
  | padLeft
  | padRight

/-- Internal state of the Joystick_ object: the fields the sketch writes.
The library object is persistent, so a field not written on a tick keeps
its previous value; sendState transmits a snapshot of this state. -/
structure JoyState where
  buttons : Fin 12 → Bool
  xAxis : ℕ
  yAxis : ℕ
  rxAxis : ℕ
  ryAxis : ℕ
  hat : Option ℕ

/-- Results of all external driver calls a single tick can make: the
oracle for psx.begin, the three configuration steps, psx.read, the button
states and the two analog stick reads (none when the getter returns false). -/
structure PsxInputs where
  beginOk : Bool
  enterConfigOk : Bool
  enableAnalogOk : Bool
  exitConfigOk : Bool
  readOk : Bool
  buttonPressed : PsxButton → Bool
  leftAnalog : Option (Fin 256 × Fin 256)
  rightAnalog : Option (Fin 256 × Fin 256)

/-- The three configuration operations attempted on connect. -/
inductive ConfigOp where
  | enterConfig
  | enableAnalog
  | exitConfig

/-- Result of one execution of the loop body (the code guarded by the
scheduler): new presence flag, new joystick state, the report passed to
sendState if any, and the configuration operations attempted. -/
structure BodyResult where
  haveController : Bool
  joy : JoyState
  sent : Option JoyState
  config : List ConfigOp

/-- The mutable state of the sketch: the haveController flag, the static
timestamp named last inside loop, and the persistent joystick object. -/
structure SysState where
  haveController : Bool
  last : ℕ
  joy : JoyState

/-- Result of one invocation of loop. -/
structure StepResult where
  state : SysState
  sent : Option JoyState
  config : List ConfigOp

/-- Button index mapping of source lines 115 to 126. -/
def buttonMap (i : Fin 12) : PsxButton :=
  match (i : ℕ) with
  | 0 => PsxButton.square
  | 1 => PsxButton.cross
  | 2 => PsxButton.circle
  | 3 => PsxButton.triangle
  | 4 => PsxButton.l1
  | 5 => PsxButton.r1
  | 6 => PsxButton.l2
  | 7 => PsxButton.r2
  | 8 => PsxButton.select
  | 9 => PsxButton.start
  | 10 => PsxButton.l3
  | _ => PsxButton.r3

/-- The report mapper (source lines 113 to 171): buttons 0 to 11 from the
fixed mapping, Y axis from the up and down pad buttons in source order,
X axis from left and right, rotation axes from the left analog stick when
its read succeeds, hat from the right analog stick when its read succeeds;
a failed analog read leaves the corresponding fields untouched. -/
noncomputable def mapReport (joy : JoyState) (inp : PsxInputs) : JoyState :=
  { buttons := fun i => inp.buttonPressed (buttonMap i)
    yAxis :=
      if inp.buttonPressed PsxButton.padUp = true then ANALOG_MIN_VALUE
      else if inp.buttonPressed PsxButton.padDown = true then ANALOG_MAX_VALUE
      else ANALOG_IDLE_VALUE
    xAxis :=
      if inp.buttonPressed PsxButton.padLeft = true then ANALOG_MIN_VALUE
      else if inp.buttonPressed PsxButton.padRight = true then ANALOG_MAX_VALUE
      else ANALOG_IDLE_VALUE
    rxAxis :=
      match inp.leftAnalog with
      | some p => (p.1 : ℕ)
      | none => joy.rxAxis
    ryAxis :=
      match inp.leftAnalog with
      | some p => (p.2 : ℕ)
      | none => joy.ryAxis
    hat :=
      match inp.rightAnalog with
      | some p => hatFromRight p.1 p.2
      | none => joy.hat }

/-- The body of loop once the scheduler fires (source lines 91 to 175).
Disconnected: a successful begin attempts enterConfigMode and, only when
it succeeds, enableAnalogSticks and exitConfigMode, then sets
haveController in every case; a failed begin changes nothing.  Connected:
a failed read clears haveController and sends nothing; a successful read
maps the report and sends it. -/
noncomputable def loopBody : Bool → JoyState → PsxInputs → BodyResult
  | false, joy, inp =>
    if inp.beginOk = true then
      { haveController := true
        joy := joy
        sent := none
        config :=
          if inp.enterConfigOk = true then
            [ConfigOp.enterConfig, ConfigOp.enableAnalog, ConfigOp.exitConfig]
          else [ConfigOp.enterConfig] }
    else { haveController := false, joy := joy, sent := none, config := [] }
  | true, joy, inp =>
    if inp.readOk = true then
      { haveController := true
        joy := mapReport joy inp
        sent := some (mapReport joy inp)
        config := [] }
    else { haveController := false, joy := joy, sent := none, config := [] }

/-- Milliseconds elapsed on the 32-bit wrapping clock: the C expression
millis () - last over uint32, i.e. (now + 2 ^ 32 - last) mod 2 ^ 32 for
last at most now + 2 ^ 32. -/
def elapsedMs (last now : ℕ) : ℕ := (now + 2 ^ 32 - last) % 2 ^ 32

/-- One invocation of loop (source lines 85 to 177): if at least
POLLING_INTERVAL milliseconds elapsed since last, update last to the
current clock and run the body; otherwise do nothing. -/
noncomputable def loopStep (s : SysState) (now : ℕ) (inp : PsxInputs) : StepResult :=
  if POLLING_INTERVAL ≤ elapsedMs s.last now then
    { state :=
        { haveController := (loopBody s.haveController s.joy inp).haveController
          last := now
          joy := (loopBody s.haveController s.joy inp).joy }
      sent := (loopBody s.haveController s.joy inp).sent
      config := (loopBody s.haveController s.joy inp).config }
  else { state := s, sent := none, config := [] }

/-- A neutral joystick state, used as a concrete fixture. -/
def joy0 : JoyState :=
  { buttons := fun _ => false
    xAxis := ANALOG_IDLE_VALUE
    yAxis := ANALOG_IDLE_VALUE
    rxAxis := ANALOG_IDLE_VALUE
    ryAxis := ANALOG_IDLE_VALUE
    hat := none }

/-- A fixture with all driver calls failing and no buttons pressed. -/
def inp0 : PsxInputs :=
  { beginOk := false
    enterConfigOk := false
    enableAnalogOk := false
    exitConfigOk := false
    readOk := false
    buttonPressed := fun _ => false
    leftAnalog := none
    rightAnalog := none }

/-- A fixture in which the read succeeds, both pad up and pad down are
pressed, and both analog reads fail. -/
def inpUpDown : PsxInputs :=
  { beginOk := false
    enterConfigOk := false
    enableAnalogOk := false
    exitConfigOk := false
    readOk := true
    buttonPressed := fun b =>
      match b with
      | PsxButton.padUp => true
      | PsxButton.padDown => true
      | _ => false
    leftAnalog := none
    rightAnalog := none }

/-- A fixture in which the read succeeds and both analog reads fail. -/
def inpNoAnalog : PsxInputs :=
  { beginOk := false
    enterConfigOk := false
    enableAnalogOk := false
    exitConfigOk := false
    readOk := true
    buttonPressed := fun _ => false
    leftAnalog := none
    rightAnalog := none }

/-- A fixture in which begin and all configuration steps succeed. -/
def inpConnect : PsxInputs :=
  { beginOk := true
    enterConfigOk := true
    enableAnalogOk := true
    exitConfigOk := true
    readOk := false
    buttonPressed := fun _ => false
    leftAnalog := none
    rightAnalog := none }

/-- A joystick state with distinctive rotation axes and hat, used to
exhibit retention of stale values. -/
def joyPrev : JoyState :=
  { buttons := fun _ => false
    xAxis := ANALOG_IDLE_VALUE
    yAxis := ANALOG_IDLE_VALUE
    rxAxis := 7
    ryAxis := 9
    hat := some 42 }

/-- A disconnected system state with the timestamp at 10, used as a
scheduler fixture. -/
def s0 : SysState := { haveController := false, last := 10, joy := joy0 }

lemma atan2_zero_xpos {a : ℝ} (ha : 0 < a) : atan2 0 a = 0 := by
  unfold atan2
  rw [Complex.ofReal_zero, zero_mul, add_zero]
  exact Complex.arg_ofReal_of_nonneg ha.le

lemma atan2_zero_xneg {a : ℝ} (ha : a < 0) : atan2 0 a = Real.pi := by
  unfold atan2
  rw [Complex.ofReal_zero, zero_mul, add_zero]
  exact Complex.arg_ofReal_of_neg ha

lemma atan2_ypos_zero {a : ℝ} (ha : 0 < a) : atan2 a 0 = Real.pi / 2 := by
  unfold atan2
  rw [Complex.ofReal_zero, zero_add, Complex.arg_real_mul Complex.I ha, Complex.arg_I]

lemma atan2_yneg_zero {a : ℝ} (ha : a < 0) : atan2 a 0 = -(Real.pi / 2) := by
  unfold atan2
  have key : (a : ℂ) * Complex.I = ((-a : ℝ) : ℂ) * (-Complex.I) := by push_cast; ring
  rw [Complex.ofReal_zero, zero_add, key, Complex.arg_real_mul (-Complex.I) (by linarith),
    Complex.arg_neg_I]

lemma intAngle_xpos {a : ℤ} (h : 0 < a) : intAngle a 0 = 270 := by
  have ha : (0 : ℝ) < (a : ℝ) := by exact_mod_cast h
  have h2 : toDegrees (hatAngle a 0) = 270 := by
    unfold hatAngle toDegrees
    rw [Int.cast_zero, atan2_zero_xpos ha, div_eq_iff Real.pi_ne_zero]
    ring
  unfold intAngle
  rw [h2]
  have h3 : ⌊(270 : ℝ) + 1 / 2⌋ = (270 : ℤ) := by rw [Int.floor_eq_iff]; norm_num
  rw [h3]
  rfl

lemma intAngle_xneg {a : ℤ} (h : a < 0) : intAngle a 0 = 90 := by
  have ha : (a : ℝ) < 0 := by exact_mod_cast h
  have h2 : toDegrees (hatAngle a 0) = 450 := by
    unfold hatAngle toDegrees
    rw [Int.cast_zero, atan2_zero_xneg ha, div_eq_iff Real.pi_ne_zero]
    ring
  unfold intAngle
  rw [h2]
  have h3 : ⌊(450 : ℝ) + 1 / 2⌋ = (450 : ℤ) := by rw [Int.floor_eq_iff]; norm_num
  rw [h3]
  rfl

lemma intAngle_ypos {a : ℤ} (h : 0 < a) : intAngle 0 a = 0 := by
  have ha : (0 : ℝ) < (a : ℝ) := by exact_mod_cast h
  have h2 : toDegrees (hatAngle 0 a) = 360 := by
    unfold hatAngle toDegrees
    rw [Int.cast_zero, atan2_ypos_zero ha, div_eq_iff Real.pi_ne_zero]
    ring
  unfold intAngle
  rw [h2]
  have h3 : ⌊(360 : ℝ) + 1 / 2⌋ = (360 : ℤ) := by rw [Int.floor_eq_iff]; norm_num
  rw [h3]
  rfl

lemma intAngle_yneg {a : ℤ} (h : a < 0) : intAngle 0 a = 180 := by
  have ha : (a : ℝ) < 0 := by exact_mod_cast h
  have h2 : toDegrees (hatAngle 0 a) = 180 := by
    unfold hatAngle toDegrees
    rw [Int.cast_zero, atan2_yneg_zero ha, div_eq_iff Real.pi_ne_zero]
    ring
  unfold intAngle
  rw [h2]
  have h3 : ⌊(180 : ℝ) + 1 / 2⌋ = (180 : ℤ) := by rw [Int.floor_eq_iff]; norm_num
  rw [h3]
  rfl

/-- Evaluation of the hat computation at the raw right stick (200, 127):
the x deviation is 128 - 200 - 1 = -73, kept by the dead zone filter, the
y deviation is 0, and the angle comes out at 90 degrees. -/
lemma hatFromRight_200_127 : hatFromRight (200 : Fin 256) (127 : Fin 256) = some 90 := by
  have hx : stickDev (200 : Fin 256) = -73 := by decide
  have hy : stickDev (127 : Fin 256) = 0 := by decide
  have hdx : deadify (-73 : ℤ) = -73 := by decide
  have hdy : deadify (0 : ℤ) = 0 := by decide
  rw [hatFromRight, hx, hy, hdx, hdy, if_neg (by norm_num)]
  rw [intAngle_xneg (by norm_num : (-73 : ℤ) < 0)]

/-- Evaluation of the hat computation at the raw right stick (53, 127):
the x deviation is 128 - 53 - 1 = 74, kept by the dead zone filter, the
y deviation is 0, and the angle comes out at 270 degrees. -/
lemma hatFromRight_53_127 : hatFromRight (53 : Fin 256) (127 : Fin 256) = some 270 := by
  have hx : stickDev (53 : Fin 256) = 74 := by decide
  have hy : stickDev (127 : Fin 256) = 0 := by decide
  have hdx : deadify (74 : ℤ) = 74 := by decide
  have hdy : deadify (0 : ℤ) = 0 := by decide
  rw [hatFromRight, hx, hy, hdx, hdy, if_neg (by norm_num)]
  rw [intAngle_xpos (by norm_num : (0 : ℤ) < 74)]

/-- Claim C1, counterexample: the claim assigns 90 degrees to a positive
filtered x deviation with zero y deviation, but the raw right stick
(53, 127), whose filtered deviation is (74, 0), yields the hat angle 270. -/
theorem c1_counterexample :
    hatFromRight (53 : Fin 256) (127 : Fin 256) = some 270 ∧ (270 : ℕ) ≠ 90 :=
  ⟨hatFromRight_53_127, by decide⟩

/-- Claim C1, amended: for every right analog input whose dead-zone
filtered deviation is (x, 0) with x positive the hat angle is 270; for
(0, y) with y positive it is 0; for (-x, 0) it is 90; for (0, -y) it is
180 (the claim had 90 and 270 swapped). -/
theorem c1_hat_cardinal_directions (x y : Fin 256) :
    (0 < deadify (stickDev x) → deadify (stickDev y) = 0 → hatFromRight x y = some 270) ∧
    (deadify (stickDev x) = 0 → 0 < deadify (stickDev y) → hatFromRight x y = some 0) ∧
    (deadify (stickDev x) < 0 → deadify (stickDev y) = 0 → hatFromRight x y = some 90) ∧
    (deadify (stickDev x) = 0 → deadify (stickDev y) < 0 → hatFromRight x y = some 180) := by
  refine ⟨fun h1 h2 => ?_, fun h1 h2 => ?_, fun h1 h2 => ?_, fun h1 h2 => ?_⟩
  · rw [hatFromRight, h2, if_neg (fun hc => h1.ne' hc.1), intAngle_xpos h1]
  · rw [hatFromRight, h1, if_neg (fun hc => h2.ne' hc.2), intAngle_ypos h2]
  · rw [hatFromRight, h2, if_neg (fun hc => h1.ne hc.1), intAngle_xneg h1]
  · rw [hatFromRight, h1, if_neg (fun hc => h2.ne hc.2), intAngle_yneg h2]

/-- Witness for the amended claim C1 at the raw right stick (53, 127). -/
theorem c1_hat_cardinal_directions_witness :
    0 < deadify (stickDev (53 : Fin 256)) ∧ deadify (stickDev (127 : Fin 256)) = 0 ∧
      hatFromRight (53 : Fin 256) (127 : Fin 256) = some 270 :=
  ⟨by decide, by decide, (c1_hat_cardinal_directions 53 127).1 (by decide) (by decide)⟩

/-- Claim C2, counterexample: at the raw secondary stick (200, 127) the
hat angle is 90 degrees, not approximately 180 as claimed. -/
theorem c2_counterexample :
    hatFromRight (200 : Fin 256) (127 : Fin 256) = some 90 ∧ (90 : ℕ) ≠ 180 :=
  ⟨hatFromRight_200_127, by decide⟩

/-- Claim C2, amended: for the raw secondary stick (200, 127) the x
deviation (-73, magnitude above the dead zone) is kept, the y deviation
is filtered to 0, and the hat switch is set to 90 degrees (not 180). -/
theorem c2_stick_200_127 :
    deadify (stickDev (200 : Fin 256)) = stickDev (200 : Fin 256) ∧
    ANALOG_DEAD_ZONE < |stickDev (200 : Fin 256)| ∧
    deadify (stickDev (127 : Fin 256)) = 0 ∧
    hatFromRight (200 : Fin 256) (127 : Fin 256) = some 90 :=
  ⟨by decide, by decide, by decide, hatFromRight_200_127⟩

/-- Claim C3, counterexample: with pad up and pad down pressed together
the Y axis is set to the configured minimum (up wins), not the maximum as
the claim states. -/
theorem c3_counterexample :
    (mapReport joy0 inpUpDown).yAxis = ANALOG_MIN_VALUE ∧
      ANALOG_MIN_VALUE ≠ ANALOG_MAX_VALUE := by
  constructor
  · simp [mapReport, inpUpDown]
  · decide

/-- Claim C3, amended: pad up sets the Y axis to the configured minimum,
pad down (with up released) sets it to the maximum, neither sets it to
idle, and analogously left and right for the X axis; when up and down are
pressed simultaneously, up is evaluated first and silently wins, so the Y
axis is set to the minimum (the claim said down wins with the maximum). -/
theorem c3_dpad_axes (joy : JoyState) (inp : PsxInputs) :
    (inp.buttonPressed PsxButton.padUp = true →
      (mapReport joy inp).yAxis = ANALOG_MIN_VALUE) ∧
    (inp.buttonPressed PsxButton.padUp = false → inp.buttonPressed PsxButton.padDown = true →
      (mapReport joy inp).yAxis = ANALOG_MAX_VALUE) ∧
    (inp.buttonPressed PsxButton.padUp = false → inp.buttonPressed PsxButton.padDown = false →
      (mapReport joy inp).yAxis = ANALOG_IDLE_VALUE) ∧
    (inp.buttonPressed PsxButton.padLeft = true →
      (mapReport joy inp).xAxis = ANALOG_MIN_VALUE) ∧
    (inp.buttonPressed PsxButton.padLeft = false → inp.buttonPressed PsxButton.padRight = true →
      (mapReport joy inp).xAxis = ANALOG_MAX_VALUE) ∧
    (inp.buttonPressed PsxButton.padLeft = false → inp.buttonPressed PsxButton.padRight = false →
      (mapReport joy inp).xAxis = ANALOG_IDLE_VALUE) := by
  refine ⟨fun h1 => ?_, fun h1 h2 => ?_, fun h1 h2 => ?_,
    fun h1 => ?_, fun h1 h2 => ?_, fun h1 h2 => ?_⟩
  · simp [mapReport, h1]
  · simp [mapReport, h1, h2]
  · simp [mapReport, h1, h2]
  · simp [mapReport, h1]
  · simp [mapReport, h1, h2]
  · simp [mapReport, h1, h2]

/-- Witness for the amended claim C3: with both up and down pressed the Y
axis is set to the configured minimum. -/
theorem c3_dpad_axes_witness :
    inpUpDown.buttonPressed PsxButton.padUp = true ∧
      (mapReport joy0 inpUpDown).yAxis = ANALOG_MIN_VALUE :=
  ⟨rfl, (c3_dpad_axes joy0 inpUpDown).1 rfl⟩

/-- Claim C4: a per-axis deviation is zeroed by the dead zone filter
exactly when its magnitude is at most 50; the hat is released exactly
when both filtered deviations are zero; in particular the raw input
(127, 77) has both deviations inside the dead zone and a released hat. -/
theorem c4_deadzone_release :
    (∀ v : ℤ, deadify v = 0 ↔ |v| ≤ ANALOG_DEAD_ZONE) ∧
    (∀ x y : Fin 256,
      hatFromRight x y = none ↔ deadify (stickDev x) = 0 ∧ deadify (stickDev y) = 0) ∧
    hatFromRight (127 : Fin 256) (77 : Fin 256) = none ∧
    |stickDev (127 : Fin 256)| ≤ ANALOG_DEAD_ZONE ∧
    |stickDev (77 : Fin 256)| ≤ ANALOG_DEAD_ZONE := by
  refine ⟨?_, ?_, ?_, by decide, by decide⟩
  · intro v
    by_cases h : ANALOG_DEAD_ZONE < |v|
    · rw [deadify, if_pos h]
      exact iff_of_false (fun hv => absurd (hv ▸ h) (by norm_num [ANALOG_DEAD_ZONE]))
        (not_le.mpr h)
    · rw [deadify, if_neg h]
      exact iff_of_true rfl (not_lt.mp h)
  · intro x y
    by_cases hc : deadify (stickDev x) = 0 ∧ deadify (stickDev y) = 0
    · rw [hatFromRight, if_pos hc]
      simp [hc]
    · rw [hatFromRight, if_neg hc]
      simp [hc]
  · have e1 : deadify (stickDev (127 : Fin 256)) = 0 := by decide
    have e2 : deadify (stickDev (77 : Fin 256)) = 0 := by decide
    rw [hatFromRight, if_pos ⟨e1, e2⟩]

/-- Witness for claim C4 at the deviation 49 and the raw input (127, 77). -/
theorem c4_deadzone_release_witness :
    (deadify 49 = 0 ↔ |(49 : ℤ)| ≤ ANALOG_DEAD_ZONE) ∧
      hatFromRight (127 : Fin 256) (77 : Fin 256) = none :=
  ⟨c4_deadzone_release.1 49, c4_deadzone_release.2.2.1⟩

/-- Claim C5: whenever the hat is not released, the integer hat angle
produced lies in the range from 0 inclusive to 360 exclusive (the lower
bound holds because the value is a natural number). -/
theorem c5_hat_angle_in_range (x y : Fin 256) (a : ℕ)
    (h : hatFromRight x y = some a) : a < 360 := by
  rw [hatFromRight] at h
  by_cases hc : deadify (stickDev x) = 0 ∧ deadify (stickDev y) = 0
  · rw [if_pos hc] at h
    exact absurd h (by simp)
  · rw [if_neg hc] at h
    have ha : intAngle (deadify (stickDev x)) (deadify (stickDev y)) = a :=
      Option.some_injective _ h
    rw [← ha]
    unfold intAngle
    exact Nat.mod_lt _ (by norm_num)

/-- Witness for claim C5 at the raw right stick (200, 127). -/
theorem c5_hat_angle_in_range_witness :
    hatFromRight (200 : Fin 256) (127 : Fin 256) = some 90 ∧ (90 : ℕ) < 360 :=
  ⟨hatFromRight_200_127, c5_hat_angle_in_range 200 127 90 hatFromRight_200_127⟩

/-- Claim C6: while connected, a failed read transitions to disconnected
and sends no report; a successful read keeps the connected state and
sends exactly one report, namely the mapped one. -/
theorem c6_read_transitions (joy : JoyState) (inp : PsxInputs) :
    (inp.readOk = false →
      (loopBody true joy inp).haveController = false ∧ (loopBody true joy inp).sent = none) ∧
    (inp.readOk = true →
      (loopBody true joy inp).haveController = true ∧
        (loopBody true joy inp).sent = some (mapReport joy inp)) := by
  refine ⟨fun h => ?_, fun h => ?_⟩
  · simp [loopBody, h]
  · simp [loopBody, h]

/-- Witness for claim C6: a failed read on the fixture disconnects and
suppresses the report. -/
theorem c6_read_transitions_witness :
    inp0.readOk = false ∧ (loopBody true joy0 inp0).haveController = false ∧
      (loopBody true joy0 inp0).sent = none :=
  ⟨rfl, (c6_read_transitions joy0 inp0).1 rfl⟩

/-- Claim C7: in the disconnected state a successful probe attempts the
configuration sequence (enterConfigMode always; enableAnalogSticks and
exitConfigMode when entering succeeded) and becomes connected regardless
of the outcomes of all configuration steps; a failed probe attempts no
configuration; in the connected state no configuration step is ever run. -/
theorem c7_connect_configuration (joy : JoyState) (inp : PsxInputs) :
    (inp.beginOk = true →
      (loopBody false joy inp).haveController = true ∧
        (loopBody false joy inp).config =
          (if inp.enterConfigOk = true then
            [ConfigOp.enterConfig, ConfigOp.enableAnalog, ConfigOp.exitConfig]
          else [ConfigOp.enterConfig]) ∧
        (loopBody false joy inp).config ≠ []) ∧
    (inp.beginOk = false →
      (loopBody false joy inp).haveController = false ∧
        (loopBody false joy inp).config = []) ∧
    (loopBody true joy inp).config = [] := by
  refine ⟨fun h => ?_, fun h => ?_, ?_⟩
  · cases he : inp.enterConfigOk
    · simp [loopBody, h, he]
    · simp [loopBody, h, he]
  · simp [loopBody, h]
  · cases hr : inp.readOk
    · simp [loopBody, hr]
    · simp [loopBody, hr]

/-- Witness for claim C7: a successful probe with all configuration steps
succeeding connects and attempts the three steps in order. -/
theorem c7_connect_configuration_witness :
    inpConnect.beginOk = true ∧
      ((loopBody false joy0 inpConnect).haveController = true ∧
        (loopBody false joy0 inpConnect).config =
          (if inpConnect.enterConfigOk = true then
            [ConfigOp.enterConfig, ConfigOp.enableAnalog, ConfigOp.exitConfig]
          else [ConfigOp.enterConfig]) ∧
        (loopBody false joy0 inpConnect).config ≠ []) :=
  ⟨rfl, (c7_connect_configuration joy0 inpConnect).1 rfl⟩

/-- Claim C8: an invocation of loop on which fewer than POLLING_INTERVAL
milliseconds of the monotonic clock have elapsed since the stored
timestamp is a no-op, and an invocation that runs the pipeline stores the
current clock value in the timestamp. -/
theorem c8_scheduler_gate (s : SysState) (now : ℕ) (inp : PsxInputs) :
    (s.last ≤ now → now - s.last < POLLING_INTERVAL →
      loopStep s now inp = { state := s, sent := none, config := [] }) ∧
    (POLLING_INTERVAL ≤ elapsedMs s.last now → (loopStep s now inp).state.last = now) := by
  constructor
  · intro h1 h2
    have he : elapsedMs s.last now = now - s.last := by
      unfold elapsedMs
      have harr : now + 2 ^ 32 - s.last = now - s.last + 2 ^ 32 := by omega
      rw [harr, Nat.add_mod_right,
        Nat.mod_eq_of_lt (lt_trans h2 (by norm_num [POLLING_INTERVAL]))]
    have hn : ¬ POLLING_INTERVAL ≤ elapsedMs s.last now := by
      rw [he]
      exact not_le.mpr h2
    rw [loopStep, if_neg hn]
  · intro h
    rw [loopStep, if_pos h]

/-- Witness for claim C8: with the timestamp at 10 and the clock at 15,
only 5 milliseconds elapsed and the invocation is a no-op. -/
theorem c8_scheduler_gate_witness :
    s0.last ≤ 15 ∧ 15 - s0.last < POLLING_INTERVAL ∧
      loopStep s0 15 inp0 = { state := s0, sent := none, config := [] } :=
  ⟨by decide, by decide, (c8_scheduler_gate s0 15 inp0).1 (by decide) (by decide)⟩

/-- Claim C9: when the left analog read fails the rotation axes keep
their previous values, when the right analog read fails the hat keeps its
previous value, and a tick with a successful state read still sends the
report, so the emitted report can depend on earlier frames. -/
theorem c9_stale_analog_fields (joy : JoyState) (inp : PsxInputs) :
    (inp.leftAnalog = none →
      (mapReport joy inp).rxAxis = joy.rxAxis ∧ (mapReport joy inp).ryAxis = joy.ryAxis) ∧
    (inp.rightAnalog = none → (mapReport joy inp).hat = joy.hat) ∧
    (inp.readOk = true → (loopBody true joy inp).sent = some (mapReport joy inp)) := by
  refine ⟨fun h => ?_, fun h => ?_, fun h => ?_⟩
  · simp [mapReport, h]
  · simp [mapReport, h]
  · simp [loopBody, h]

/-- Witness for claim C9: on a state with rotation axes 7 and 9 and hat
42, a tick whose analog reads fail keeps all three and still sends. -/
theorem c9_stale_analog_fields_witness :
    inpNoAnalog.leftAnalog = none ∧ inpNoAnalog.rightAnalog = none ∧
      inpNoAnalog.readOk = true ∧
      ((mapReport joyPrev inpNoAnalog).rxAxis = joyPrev.rxAxis ∧
        (mapReport joyPrev inpNoAnalog).ryAxis = joyPrev.ryAxis) ∧
      (mapReport joyPrev inpNoAnalog).hat = joyPrev.hat ∧
      (loopBody true joyPrev inpNoAnalog).sent = some (mapReport joyPrev inpNoAnalog) :=
  ⟨rfl, rfl, rfl, (c9_stale_analog_fields joyPrev inpNoAnalog).1 rfl,
    (c9_stale_analog_fields joyPrev inpNoAnalog).2.1 rfl,
    (c9_stale_analog_fields joyPrev inpNoAnalog).2.2 rfl⟩

/-- Claim C10: every dead-zone filtered deviation is either exactly 0 or
of magnitude strictly above the threshold, and whenever the hat
computation reaches the arctangent branch the filtered pair is not
(0, 0), so the arctangent is never evaluated at (0, 0). -/
theorem c10_deadzone_invariant :
    (∀ v : ℤ, deadify v = 0 ∨ ANALOG_DEAD_ZONE < |deadify v|) ∧
    (∀ x y : Fin 256,
      hatFromRight x y = none ∨
        ¬(deadify (stickDev x) = 0 ∧ deadify (stickDev y) = 0)) := by
  constructor
  · intro v
    by_cases h : ANALOG_DEAD_ZONE < |v|
    · right
      rw [deadify, if_pos h]
      exact h
    · left
      rw [deadify, if_neg h]
  · intro x y
    by_cases hc : deadify (stickDev x) = 0 ∧ deadify (stickDev y) = 0
    · left
      rw [hatFromRight, if_pos hc]
    · right
      exact hc

/-- Witness for claim C10 at the deviation 60 and the raw input (200, 127). -/
theorem c10_deadzone_invariant_witness :
    (deadify 60 = 0 ∨ ANALOG_DEAD_ZONE < |deadify 60|) ∧
      (hatFromRight (200 : Fin 256) (127 : Fin 256) = none ∨
        ¬(deadify (stickDev (200 : Fin 256)) = 0 ∧
          deadify (stickDev (127 : Fin 256)) = 0)) :=
  ⟨c10_deadzone_invariant.1 60, c10_deadzone_invariant.2 200 127⟩
